import Mathlib

/-!
Shallow embedding of `src/ospgrid/grid.py` (the `ospgrid` plane-grillage
analysis package) and proofs about its claims.

Modelling conventions:
* Python floats are modelled as exact rationals `ℚ`; the algebraic claims in
  play are identities of field arithmetic, independent of rounding.
* `np.sqrt` is modelled by the computable `Rat.sqrt`, which agrees with the
  mathematical square root on perfect rational squares; every fact proved here
  that touches a member length either treats `L` as an opaque field value
  (hypotheses `0 < m.L`) or evaluates it at perfect-square inputs
  (e.g. `Rat.sqrt 0 = 0`, `Rat.sqrt 1 = 1`), where the model is exact.
* Python exceptions are modelled by `Except GridError`; each `GridError`
  constructor corresponds to one raise site / exception class of the source
  (`ValueError` with an ambiguous-label message, `ValueError` with a
  cannot-find message, Python's built-in `IndexError`, and the final
  catch-all `ValueError`).
* In-place mutation of a node fetched by `get_node` is modelled by replacing
  the corresponding entry of the grid's node list (for a label reference the
  fetched object is the first matching list entry; for an integer reference it
  is the entry at the Python list position).
* The OpenSeesPy module `osp` is modelled as a command trace (`OspState`):
  each `osp.*` call appends a command, `osp.wipe()` resets the trace.
-/

namespace Ospgrid

open Matrix

/-- `Support` enum of `grid.py` (lines 20-30).  Flag order DX DY DZ RX RY RZ,
`1` = restrained (fixed), `0` = free, exactly as passed to `osp.fix`. -/
inductive Support
  | PINNED_X
  | PINNED_Y
  | PROP
  | FIXED
  | FIXED_V_ROLLER
  deriving DecidableEq, Repr, Fintype

/-- The per-variant flag lists of the `Support` enum. -/
def Support.value : Support → List ℕ
  | .PINNED_X => [1, 1, 1, 0, 1, 1]
  | .PINNED_Y => [1, 1, 1, 1, 0, 1]
  | .PROP => [1, 1, 1, 0, 0, 1]
  | .FIXED => [1, 1, 1, 1, 1, 1]
  | .FIXED_V_ROLLER => [1, 1, 0, 1, 1, 1]

/-- The 0-based positions of the DOFs a support variant leaves free
(flag `0`), in DOF order DX DY DZ RX RY RZ. -/
def Support.freeDOFs (sp : Support) : List ℕ :=
  (List.range 6).filter (fun i => sp.value.getD i 1 == 0)

/-- `Node` of `grid.py` (lines 33-103): index, label, plane coordinates,
load triple (default zero) and optional support. -/
structure Node where
  idx : ℕ
  label : String
  x : ℚ
  y : ℚ
  Fz : ℚ := 0
  Mx : ℚ := 0
  My : ℚ := 0
  support : Option Support := none
  deriving DecidableEq, Repr

/-- `Node.set_load` (lines 67-87): overwrites the three load components. -/
def Node.set_load (n : Node) (Fz Mx My : ℚ) : Node :=
  { n with Fz := Fz, Mx := Mx, My := My }

/-- `Node.set_support` (lines 89-103). -/
def Node.set_support (n : Node) (support : Option Support) : Node :=
  { n with support := support }

/-- `Member` of `grid.py` (lines 106-140): index, the two end nodes, section
rigidities and the cached geometry `delta_x`, `delta_y`, `L`. -/
structure Member where
  idx : ℕ
  node_i : Node
  node_j : Node
  EI : ℚ
  GJ : ℚ
  delta_x : ℚ
  delta_y : ℚ
  L : ℚ
  deriving DecidableEq, Repr

/-- `Member.__init__` (lines 111-140).  `np.sqrt` is modelled by `Rat.sqrt`
(exact on perfect rational squares).  Note the source performs no validation
whatsoever: coincident end nodes yield `delta_x = delta_y = 0` and `L = 0`. -/
def mkMember (idx : ℕ) (node_i node_j : Node) (EI GJ : ℚ) : Member :=
  let delta_x := node_j.x - node_i.x
  let delta_y := node_j.y - node_i.y
  { idx := idx, node_i := node_i, node_j := node_j, EI := EI, GJ := GJ,
    delta_x := delta_x, delta_y := delta_y,
    L := Rat.sqrt (delta_x ^ 2 + delta_y ^ 2) }

/-- `Member.get_local_stiffness` (lines 142-170), DOF order per end
DZ (vertical), RX (torsion), bending rotation. -/
def Member.get_local_stiffness (m : Member) : Matrix (Fin 6) (Fin 6) ℚ :=
  let k11 := 12 * m.EI / m.L ^ 3
  let k13 := 6 * m.EI / m.L ^ 2
  let k22 := m.GJ / m.L
  let k33 := 4 * m.EI / m.L
  let k36 := 2 * m.EI / m.L
  !![k11, 0, k13, -k11, 0, k13;
     0, k22, 0, 0, -k22, 0;
     k13, 0, k33, -k13, 0, k36;
     -k11, 0, -k13, k11, 0, -k13;
     0, -k22, 0, 0, k22, 0;
     k13, 0, k36, -k13, 0, k33]

/-- `Member.get_transformation_matrix` (lines 172-189).  The source computes
`np.kron(np.eye(2), [[1,0,0],[0,c,s],[0,-s,c]])`; the Kronecker product of a
2x2 identity with a 3x3 block is written out entrywise here. -/
def Member.get_transformation_matrix (m : Member) : Matrix (Fin 6) (Fin 6) ℚ :=
  let c := m.delta_x / m.L
  let s := m.delta_y / m.L
  !![1, 0, 0, 0, 0, 0;
     0, c, s, 0, 0, 0;
     0, -s, c, 0, 0, 0;
     0, 0, 0, 1, 0, 0;
     0, 0, 0, 0, c, s;
     0, 0, 0, 0, -s, c]

/-- `Member.get_global_stiffness` (lines 191-207): `Kg = T.T @ K @ T`. -/
def Member.get_global_stiffness (m : Member) : Matrix (Fin 6) (Fin 6) ℚ :=
  let K := m.get_local_stiffness
  let T := m.get_transformation_matrix
  Tᵀ * K * T

/-- Error conditions of the source, one constructor per raise site /
exception class (see module docstring). -/
inductive GridError
  | ambiguousLabel
  | notFound
  | indexError
  | badArgument
  deriving DecidableEq, Repr

/-- A node reference: Python's duck-typed `Union[str, int]` argument of
`get_node`.  (Passing a `Node` object returns it unchanged in the source and
is omitted here, since object aliasing has no pure counterpart.) -/
inductive NodeRef
  | label (s : String)
  | idx (i : ℤ)
  deriving DecidableEq, Repr

/-- Python list indexing `l[i]` for `i : ℤ`: negative indices count from the
end; anything out of range raises `IndexError`. -/
def pyGet (l : List α) (i : ℤ) : Except GridError α :=
  let j : ℤ := if i < 0 then i + l.length else i
  if h : 0 ≤ j ∧ j.toNat < l.length then .ok (l.get ⟨j.toNat, h.2⟩)
  else .error .indexError

/-- `Grid` of `grid.py` (lines 210-250): node and member collections with
their counters.  (The plotting-color initialisation in `__init__` is
presentation state and not modelled.) -/
structure Grid where
  nodes : List Node := []
  members : List Member := []
  no_nodes : ℕ := 0
  no_members : ℕ := 0
  deriving DecidableEq, Repr

/-- `Grid.clear` (lines 238-250) resets every collection and counter; the
freshly initialised grid is exactly the cleared grid. -/
def Grid.clear (_g : Grid) : Grid :=
  { nodes := [], members := [], no_nodes := 0, no_members := 0 }

/-- The grid produced by `Grid.__init__`. -/
def Grid.empty : Grid :=
  { nodes := [], members := [], no_nodes := 0, no_members := 0 }

/-- `Grid.add_node` (lines 252-274): increments the counter, creates the node
with the new counter as its index, appends it and returns it. -/
def Grid.add_node (g : Grid) (label : String) (x y : ℚ) : Grid × Node :=
  let no_nodes := g.no_nodes + 1
  let node : Node := { idx := no_nodes, label := label, x := x, y := y }
  ({ g with no_nodes := no_nodes, nodes := g.nodes ++ [node] }, node)

/-- `Grid.get_node` (lines 386-422).  For a label: scan for exact matches,
more than one match raises `ValueError` (ambiguous), none raises `ValueError`
(cannot find), otherwise the first match is returned.  For an integer the
source does plain Python list indexing `self.nodes[node]`. -/
def Grid.get_node (g : Grid) : NodeRef → Except GridError Node
  | .label s =>
    let node_match := g.nodes.filter (fun n => n.label == s)
    if node_match.length > 1 then .error .ambiguousLabel
    else
      match node_match with
      | [] => .error .notFound
      | n :: _ => .ok n
  | .idx i => pyGet g.nodes i

/-- The list position of the node object `get_node` hands back (the slot the
source then mutates in place): first label match, or the Python list
position for an integer reference. -/
def Grid.node_pos (g : Grid) : NodeRef → ℕ
  | .label s => g.nodes.findIdx (fun n => n.label == s)
  | .idx i => (if i < 0 then i + (g.nodes.length : ℤ) else i).toNat

/-- Replace the node at list position `k` by `f` of it (the pure rendering of
the source's in-place mutation of the object returned by `get_node`). -/
def Grid.set_node (g : Grid) (k : ℕ) (f : Node → Node) : Grid :=
  { g with nodes :=
      match g.nodes[k]? with
      | some n => g.nodes.set k (f n)
      | none => g.nodes }

/-- `Grid.add_member` (lines 276-308): increments `no_members`, resolves both
end nodes, constructs the `Member` and appends it.  (The source increments
the counter before the lookups, so a failed lookup leaves the counter
incremented; that mutation is unobservable in this pure `Except` model and
none of the claims depend on it.) -/
def Grid.add_member (g : Grid) (node_i node_j : NodeRef) (EI GJ : ℚ) :
    Except GridError Grid :=
  let g1 := { g with no_members := g.no_members + 1 }
  match g1.get_node node_i with
  | .error e => .error e
  | .ok ni =>
    match g1.get_node node_j with
    | .error e => .error e
    | .ok nj =>
      let member := mkMember g1.no_members ni nj EI GJ
      .ok { g1 with members := g1.members ++ [member] }

/-- `Grid.add_load` (lines 310-343): resolves the node and overwrites its
load triple in place. -/
def Grid.add_load (g : Grid) (node : NodeRef) (Fz Mx My : ℚ) :
    Except GridError Grid :=
  match g.get_node node with
  | .error e => .error e
  | .ok _ => .ok (g.set_node (g.node_pos node) (fun n => n.set_load Fz Mx My))

/-- The `support` argument of `add_support`: a `Support` value (or the `None`
default) or a single-character string descriptor. -/
inductive SupportArg
  | sup (s : Option Support)
  | str (s : String)
  deriving DecidableEq, Repr

/-- `Grid.add_support` (lines 345-384): resolves the node; a string argument
is compared against the five known descriptors, and crucially the
`if`/`elif` chain has no `else` branch — an unrecognised string leaves the
node (and the grid) untouched and returns normally. -/
def Grid.add_support (g : Grid) (node : NodeRef) (support : SupportArg) :
    Except GridError Grid :=
  match g.get_node node with
  | .error e => .error e
  | .ok _ =>
    match support with
    | .str s =>
      if s == "F" then
        .ok (g.set_node (g.node_pos node) (fun n => n.set_support (some .FIXED)))
      else if s == "X" then
        .ok (g.set_node (g.node_pos node) (fun n => n.set_support (some .PINNED_X)))
      else if s == "Y" then
        .ok (g.set_node (g.node_pos node) (fun n => n.set_support (some .PINNED_Y)))
      else if s == "P" then
        .ok (g.set_node (g.node_pos node) (fun n => n.set_support (some .PROP)))
      else if s == "V" then
        .ok (g.set_node (g.node_pos node) (fun n => n.set_support (some .FIXED_V_ROLLER)))
      else .ok g
    | .sup s => .ok (g.set_node (g.node_pos node) (fun n => n.set_support s))

/-- Python's `sorted([a, b]) == sorted([p, q])` for two-element string lists:
the pairs are equal as multisets. -/
def sortedPairEq (a b p q : String) : Bool :=
  (a == p && b == q) || (a == q && b == p)

/-- `Grid.get_member` for a tuple of node labels (lines 450-466).  The source
iterates `itertools.product` over the list of all `node_i` labels and the
list of all `node_j` labels (pairing labels of distinct members!), and when a
combination matches it selects the members whose two end labels are the query
pair and returns `the_member[0]` — which raises Python's `IndexError` when
that filtered list is empty.  Only when no combination matches does it raise
the `ValueError` "Member with nodes ... could not be found.". -/
def Grid.get_member_labels (g : Grid) (a b : String) : Except GridError Member :=
  let node_i_lbl := g.members.map (fun m => m.node_i.label)
  let node_j_lbl := g.members.map (fun m => m.node_j.label)
  if node_i_lbl.any (fun p => node_j_lbl.any (fun q => sortedPairEq a b p q)) then
    match g.members.filter (fun m =>
        (m.node_i.label == a && m.node_j.label == b) ||
        (m.node_i.label == b && m.node_j.label == a)) with
    | [] => .error .indexError
    | m :: _ => .ok m
  else .error .notFound

/-- A grid built by a sequence of `add_node` calls on a fresh grid. -/
def mkGrid (l : List (String × ℚ × ℚ)) : Grid :=
  l.foldl (fun g t => (g.add_node t.1 t.2.1 t.2.2).1) Grid.empty

end Ospgrid

namespace Ospgrid

open Matrix

/- Concrete fixtures shared by several witnesses: a unit-length member along
the x axis (so `L = Rat.sqrt 1 = 1`, where the `Rat.sqrt` model is exact). -/

/-- Fixture node at the origin. -/
def nodeA : Node := { idx := 1, label := "A", x := 0, y := 0 }

/-- Fixture node at (1, 0). -/
def nodeB : Node := { idx := 2, label := "B", x := 1, y := 0 }

/-- Fixture member from `nodeA` to `nodeB` with EI = 2, GJ = 3. -/
def memAB : Member := mkMember 1 nodeA nodeB 2 3

/-- The fixture member has unit length (`Rat.sqrt` is exact here). -/
theorem memAB_L : memAB.L = 1 := by
  have h : memAB.L = Rat.sqrt (((1 : ℚ) - 0) ^ 2 + ((0 : ℚ) - 0) ^ 2) := rfl
  rw [h]
  norm_num

/-- The fixture member has positive length. -/
theorem memAB_L_pos : 0 < memAB.L := by
  rw [memAB_L]
  norm_num

/-- C1: for a member with positive EI, GJ and L, the local stiffness matrix
is symmetric and its entries are exactly the classic grillage coefficients:
vertical-translation diagonal `12·EI/L³` with negated opposite-end cross
term, translation-bending coupling of magnitude `6·EI/L²` with sign
alternating by end (positive in the end-i translation row, negative in the
end-j one), pure torsion `GJ/L` decoupled from bending with negated cross
term, bending diagonal `4·EI/L` and opposite-end bending coupling `2·EI/L`. -/
theorem local_stiffness_entries (m : Member)
    (hEI : 0 < m.EI) (hGJ : 0 < m.GJ) (hL : 0 < m.L) :
    (m.get_local_stiffness)ᵀ = m.get_local_stiffness
    ∧ m.get_local_stiffness 0 0 = 12 * m.EI / m.L ^ 3
    ∧ m.get_local_stiffness 3 3 = 12 * m.EI / m.L ^ 3
    ∧ m.get_local_stiffness 0 3 = -(12 * m.EI / m.L ^ 3)
    ∧ m.get_local_stiffness 0 2 = 6 * m.EI / m.L ^ 2
    ∧ m.get_local_stiffness 0 5 = 6 * m.EI / m.L ^ 2
    ∧ m.get_local_stiffness 2 3 = -(6 * m.EI / m.L ^ 2)
    ∧ m.get_local_stiffness 3 5 = -(6 * m.EI / m.L ^ 2)
    ∧ m.get_local_stiffness 1 1 = m.GJ / m.L
    ∧ m.get_local_stiffness 4 4 = m.GJ / m.L
    ∧ m.get_local_stiffness 1 4 = -(m.GJ / m.L)
    ∧ m.get_local_stiffness 2 2 = 4 * m.EI / m.L
    ∧ m.get_local_stiffness 5 5 = 4 * m.EI / m.L
    ∧ m.get_local_stiffness 2 5 = 2 * m.EI / m.L
    ∧ m.get_local_stiffness 0 1 = 0 ∧ m.get_local_stiffness 0 4 = 0
    ∧ m.get_local_stiffness 1 2 = 0 ∧ m.get_local_stiffness 1 5 = 0
    ∧ m.get_local_stiffness 1 3 = 0 ∧ m.get_local_stiffness 2 4 = 0
    ∧ m.get_local_stiffness 3 4 = 0 ∧ m.get_local_stiffness 4 5 = 0 := by
  refine ⟨?_, rfl, rfl, rfl, rfl, rfl, rfl, rfl, rfl, rfl, rfl, rfl, rfl,
    rfl, rfl, rfl, rfl, rfl, rfl, rfl, rfl, rfl⟩
  ext i j
  fin_cases i <;> fin_cases j <;> rfl

/-- C1 witness: the hypotheses hold for the concrete member `memAB`, and the
theorem applies to it. -/
theorem local_stiffness_entries_witness :
    0 < memAB.EI ∧ 0 < memAB.GJ ∧ 0 < memAB.L
    ∧ (memAB.get_local_stiffness)ᵀ = memAB.get_local_stiffness
    ∧ memAB.get_local_stiffness 0 0 = 12 * memAB.EI / memAB.L ^ 3 :=
  ⟨by decide, by decide, memAB_L_pos,
    (local_stiffness_entries memAB (by decide) (by decide) memAB_L_pos).1,
    (local_stiffness_entries memAB (by decide) (by decide) memAB_L_pos).2.1⟩

/-- The 3x3 rotation block of the spec: vertical translation invariant, the
two rotations rotated by the direction cosines. -/
def rotBlock (c s : ℚ) : Matrix (Fin 3) (Fin 3) ℚ :=
  !![1, 0, 0; 0, c, s; 0, -s, c]

/-- C2: with `c = Δx/L` and `s = Δy/L`, the transformation matrix is block
diagonal with two identical 3x3 blocks `[[1,0,0],[0,c,s],[0,-s,c]]` (stated
via the two block embeddings `Fin.castAdd`/`Fin.natAdd` of `Fin 3` into
`Fin 6`), and the global stiffness is exactly `Tᵀ * K_local * T`. -/
theorem transformation_blocks_global_stiffness (m : Member) (hL : 0 < m.L) :
    (∀ i j : Fin 3,
        m.get_transformation_matrix (Fin.castAdd 3 i) (Fin.castAdd 3 j)
          = rotBlock (m.delta_x / m.L) (m.delta_y / m.L) i j)
    ∧ (∀ i j : Fin 3,
        m.get_transformation_matrix (Fin.natAdd 3 i) (Fin.natAdd 3 j)
          = rotBlock (m.delta_x / m.L) (m.delta_y / m.L) i j)
    ∧ (∀ i j : Fin 3,
        m.get_transformation_matrix (Fin.castAdd 3 i) (Fin.natAdd 3 j) = 0)
    ∧ (∀ i j : Fin 3,
        m.get_transformation_matrix (Fin.natAdd 3 i) (Fin.castAdd 3 j) = 0)
    ∧ m.get_global_stiffness
        = (m.get_transformation_matrix)ᵀ * m.get_local_stiffness
            * m.get_transformation_matrix := by
  refine ⟨fun i j => ?_, fun i j => ?_, fun i j => ?_, fun i j => ?_, rfl⟩ <;>
    fin_cases i <;> fin_cases j <;> rfl

/-- C2 witness: the hypothesis holds for `memAB` and the theorem applies. -/
theorem transformation_blocks_global_stiffness_witness :
    0 < memAB.L
    ∧ memAB.get_transformation_matrix (Fin.castAdd 3 1) (Fin.castAdd 3 1)
        = rotBlock (memAB.delta_x / memAB.L) (memAB.delta_y / memAB.L) 1 1
    ∧ memAB.get_global_stiffness
        = (memAB.get_transformation_matrix)ᵀ * memAB.get_local_stiffness
            * memAB.get_transformation_matrix :=
  ⟨memAB_L_pos,
    (transformation_blocks_global_stiffness memAB memAB_L_pos).1 1 1,
    (transformation_blocks_global_stiffness memAB memAB_L_pos).2.2.2.2⟩

/-- Fixture grid with two coincident nodes labelled "A" and "B", both at the
origin. -/
def gAB0 : Grid := mkGrid [("A", 0, 0), ("B", 0, 0)]

/-- The first node of `gAB0`. -/
def nodeA0 : Node := { idx := 1, label := "A", x := 0, y := 0 }

/-- The second node of `gAB0`, coincident with the first. -/
def nodeB0 : Node := { idx := 2, label := "B", x := 0, y := 0 }

/-- C3 counterexample: creating a member over two nodes at identical
coordinates does NOT fail: `add_member` returns `.ok` (no InvalidGeometry is
ever raised — the source has no such check), and the zero-length member is
silently stored with stiffness geometry `L = 0`. -/
theorem zero_length_member_no_failfast :
    (gAB0.add_member (.label "A") (.label "B") 5 7).map
        (fun g => g.members.map Member.L) = .ok [0] := by
  have h : Rat.sqrt (((0 : ℚ) - 0) ^ 2 + ((0 : ℚ) - 0) ^ 2) = 0 := by norm_num
  show Except.ok [Rat.sqrt (((0 : ℚ) - 0) ^ 2 + ((0 : ℚ) - 0) ^ 2)]
      = Except.ok [(0 : ℚ)]
  rw [h]

/-- C3 (amended): member creation over coincident nodes performs no
validation: `add_member` succeeds, appending a member whose cached geometry
is `delta_x = delta_y = 0` and `L = 0`; zero-length members are silently
given (degenerate) stiffness data instead of failing fast. -/
theorem zero_length_member_constructed (g : Grid) (la lb : String) (EI GJ : ℚ)
    (na nb : Node) (ha : g.get_node (.label la) = .ok na)
    (hb : g.get_node (.label lb) = .ok nb)
    (hx : na.x = nb.x) (hy : na.y = nb.y) :
    g.add_member (.label la) (.label lb) EI GJ
      = .ok { g with
              no_members := g.no_members + 1
              members := g.members ++ [mkMember (g.no_members + 1) na nb EI GJ] }
    ∧ (mkMember (g.no_members + 1) na nb EI GJ).delta_x = 0
    ∧ (mkMember (g.no_members + 1) na nb EI GJ).delta_y = 0
    ∧ (mkMember (g.no_members + 1) na nb EI GJ).L = 0 := by
  have hdx : nb.x - na.x = 0 := by rw [hx, sub_self]
  have hdy : nb.y - na.y = 0 := by rw [hy, sub_self]
  refine ⟨?_, hdx, hdy, ?_⟩
  · simp only [Grid.add_member]
    rw [show ({ g with no_members := g.no_members + 1 } : Grid).get_node
          (.label la) = .ok na from ha,
        show ({ g with no_members := g.no_members + 1 } : Grid).get_node
          (.label lb) = .ok nb from hb]
  · show Rat.sqrt ((nb.x - na.x) ^ 2 + (nb.y - na.y) ^ 2) = 0
    rw [hdx, hdy]
    norm_num

/-- C3 witness: the amended theorem applies to the concrete coincident-node
grid `gAB0`. -/
theorem zero_length_member_constructed_witness :
    gAB0.add_member (.label "A") (.label "B") 5 7
      = .ok { gAB0 with
              no_members := gAB0.no_members + 1
              members := gAB0.members
                ++ [mkMember (gAB0.no_members + 1) nodeA0 nodeB0 5 7] }
    ∧ (mkMember (gAB0.no_members + 1) nodeA0 nodeB0 5 7).L = 0 :=
  ⟨(zero_length_member_constructed gAB0 "A" "B" 5 7 nodeA0 nodeB0
      rfl rfl rfl rfl).1,
   (zero_length_member_constructed gAB0 "A" "B" 5 7 nodeA0 nodeB0
      rfl rfl rfl rfl).2.2.2⟩

/-- One OpenSeesPy API call issued by `Grid.analyze`, with its arguments. -/
inductive OspCmd
  | model (ndm ndf : ℕ)
  | node (tag : ℕ) (x y z : ℚ)
  | fix (tag : ℕ) (flags : List ℕ)
  | uniaxialMaterial (kind : String) (tag : ℕ) (E : ℚ)
  | geomTransf (kind : String) (tag : ℕ) (vecxz : List ℚ)
  | element (kind : String) (tag nodeI nodeJ : ℕ) (A E G J I Iz : ℚ)
      (transf : ℕ)
  | timeSeries (kind : String) (tag : ℕ)
  | pattern (kind : String) (tag ts : ℕ)
  | load (tag : ℕ) (vals : List ℚ)
  | system (kind : String)
  | numberer (kind : String)
  | constraints (kind : String)
  | integrator (kind : String) (lam : ℚ)
  | algorithm (kind : String)
  | analysis (kind : String)
  | analyzeSteps (n : ℕ)
  | reactions
  deriving DecidableEq, Repr

/-- The state of the `osp` module: the command trace accumulated since the
last `wipe`.  All OpenSeesPy results (displacements, reactions, member
forces) are functions of this state. -/
def OspState : Type := List OspCmd

/-- An `osp.*` call appends its command to the module state. -/
def ospStep (s : OspState) (c : OspCmd) : OspState := List.append s [c]

/-- `osp.wipe()` (line 483): removes any existing model. -/
def ospWipe (_s : OspState) : OspState := []

/-- The command sequence `Grid.analyze` (lines 471-566) issues after the
initial `wipe`, in source order; it reads nothing but the grid itself. -/
def Grid.analyzeCmds (g : Grid) : List OspCmd :=
  let E : ℚ := 200 * 10 ^ 9
  let G : ℚ := 80 * 10 ^ 9
  [OspCmd.model 3 6]
  ++ g.nodes.flatMap (fun n =>
      OspCmd.node n.idx n.x n.y 0 ::
        (match n.support with
         | some sp => [OspCmd.fix n.idx sp.value]
         | none => []))
  ++ [OspCmd.uniaxialMaterial "Elastic" 1 E,
      OspCmd.geomTransf "Linear" 1 [0, 0, 1]]
  ++ g.members.map (fun m =>
      let I := m.EI / E
      let J := m.GJ / G
      let A := I / 10 ^ 6
      OspCmd.element "elasticBeamColumn" m.idx m.node_i.idx m.node_j.idx
        A E G J I (0.1 * I) 1)
  ++ [OspCmd.timeSeries "Constant" 1, OspCmd.pattern "Plain" 1 1]
  ++ g.nodes.filterMap (fun n =>
      if n.Fz != 0 || n.Mx != 0 || n.My != 0 then
        some (OspCmd.load n.idx [0, 0, n.Fz, n.Mx, n.My, 0])
      else none)
  ++ [OspCmd.system "FullGeneral", OspCmd.numberer "RCM",
      OspCmd.constraints "Plain", OspCmd.integrator "LoadControl" 1,
      OspCmd.algorithm "Linear", OspCmd.analysis "Static",
      OspCmd.analyzeSteps 1, OspCmd.reactions]

/-- `Grid.analyze`: wipes the `osp` state, then issues the rebuild commands
one by one. -/
def Grid.analyze (g : Grid) (prior : OspState) : OspState :=
  g.analyzeCmds.foldl ospStep (ospWipe prior)

/-- Folding the command emitter from an accumulator appends the commands. -/
theorem foldl_ospStep (l : List OspCmd) :
    ∀ acc : OspState, l.foldl ospStep acc = List.append acc l := by
  induction l with
  | nil => intro acc; simp [List.foldl, List.append_nil]
  | cons c t ih =>
    intro acc
    simp only [List.foldl_cons, ih, ospStep]
    simp

/-- C8: analysis is accumulation-free and idempotent.  Whatever `osp` state a
previous call left behind, `analyze` produces the command trace rebuilt from
the grid alone: the result is independent of the prior state, so re-running
on the identical model gives the identical trace (hence identical
displacements, reactions and member forces, which OpenSeesPy computes from
that state). -/
theorem analyze_idempotent (g : Grid) (s₁ s₂ : OspState) :
    g.analyze s₁ = g.analyze s₂
    ∧ g.analyze (g.analyze s₁) = g.analyze s₁
    ∧ g.analyze s₁ = g.analyzeCmds := by
  have key : ∀ s : OspState, g.analyze s = g.analyzeCmds := by
    intro s
    show g.analyzeCmds.foldl ospStep (ospWipe s) = g.analyzeCmds
    rw [show ospWipe s = [] from rfl, foldl_ospStep]
    simp
  exact ⟨(key s₁).trans (key s₂).symm, (key _).trans (key s₁).symm, key s₁⟩

/-- Helper: `get_node` by label raises the ambiguous-label `ValueError` when
more than one node matches. -/
theorem get_node_label_ambiguous (g : Grid) (s : String)
    (h : 1 < (g.nodes.filter (fun nd => nd.label == s)).length) :
    g.get_node (.label s) = .error .ambiguousLabel := by
  simp only [Grid.get_node]
  rw [if_pos h]

/-- Helper: `get_node` by label raises the cannot-find `ValueError` when no
node matches. -/
theorem get_node_label_none (g : Grid) (s : String)
    (h : g.nodes.filter (fun nd => nd.label == s) = []) :
    g.get_node (.label s) = .error .notFound := by
  simp [Grid.get_node, h]

/-- Helper: `get_node` by label returns the match when it is unique. -/
theorem get_node_label_unique (g : Grid) (s : String) (n : Node)
    (h : g.nodes.filter (fun nd => nd.label == s) = [n]) :
    g.get_node (.label s) = .ok n := by
  simp [Grid.get_node, h]

/-- C4: the label-lookup contract of `get_node`: with more than one exact
match it fails with the ambiguous-label error, with none it fails with the
not-found error, and with exactly one match it returns that node — which is
a node of the grid whose label is the query. -/
theorem get_node_label_contract (g : Grid) (s : String) :
    (1 < (g.nodes.filter (fun nd => nd.label == s)).length →
        g.get_node (.label s) = .error .ambiguousLabel)
    ∧ ((g.nodes.filter (fun nd => nd.label == s)).length = 0 →
        g.get_node (.label s) = .error .notFound)
    ∧ (∀ n : Node, g.nodes.filter (fun nd => nd.label == s) = [n] →
        g.get_node (.label s) = .ok n ∧ n.label = s ∧ n ∈ g.nodes) := by
  refine ⟨get_node_label_ambiguous g s,
    fun h => get_node_label_none g s (List.length_eq_zero.mp h),
    fun n h => ?_⟩
  have hmem : n ∈ g.nodes.filter (fun nd => nd.label == s) :=
    h ▸ List.mem_singleton_self n
  have hf := List.mem_filter.mp hmem
  exact ⟨get_node_label_unique g s n h, by simpa using hf.2, hf.1⟩

/-- Fixture grid with a single node "A" at the origin (the node is
`nodeA0`). -/
def gA : Grid := mkGrid [("A", 0, 0)]

/-- Fixture grid with two distinct nodes that share the label "A". -/
def gAA : Grid := mkGrid [("A", 0, 0), ("A", 1, 0)]

/-- C4 witness: after creating node "A" at the origin, `get_node "A"` returns
it; with a second node also labelled "A" it fails with the ambiguous-label
error; looking up the undefined label "Z" fails with not-found. -/
theorem get_node_label_contract_witness :
    gA.get_node (.label "A") = .ok nodeA0
    ∧ gAA.get_node (.label "A") = .error .ambiguousLabel
    ∧ gA.get_node (.label "Z") = .error .notFound :=
  ⟨((get_node_label_contract gA "A").2.2 nodeA0 (by decide)).1,
   (get_node_label_contract gAA "A").1 (by decide),
   (get_node_label_contract gA "Z").2.1 (by decide)⟩

/-- C10: an unrecognised string support descriptor (anything outside
F, X, Y, P, V) is silently ignored: `add_support` returns normally and the
grid — in particular the node's support — is completely unchanged. -/
theorem add_support_unknown_string_ignored (g : Grid) (r : NodeRef)
    (s : String) (n : Node) (hres : g.get_node r = .ok n)
    (hs : s ∉ (["F", "X", "Y", "P", "V"] : List String)) :
    g.add_support r (.str s) = .ok g := by
  simp only [List.mem_cons, List.not_mem_nil, or_false, not_or] at hs
  obtain ⟨h1, h2, h3, h4, h5⟩ := hs
  simp [Grid.add_support, hres, h1, h2, h3, h4, h5]

/-- C10 witness: on the one-node grid `gA`, the unknown descriptor "Q" is
ignored and the grid is returned unchanged. -/
theorem add_support_unknown_string_ignored_witness :
    gA.add_support (.label "A") (.str "Q") = .ok gA :=
  add_support_unknown_string_ignored gA (.label "A") "Q" nodeA0
    rfl (by decide)

/-- A four-node grid with members A-B and C-D only, built through the public
API (both `add_member` calls succeed). -/
def buildC5 : Except GridError Grid :=
  (mkGrid [("A", 0, 0), ("B", 1, 0), ("C", 0, 1), ("D", 1, 1)]).add_member
      (.label "A") (.label "B") 1 1 >>= fun g =>
    g.add_member (.label "C") (.label "D") 1 1

/-- C5: `get_member` for a label pair that no single member connects.  On the
grid with members A-B and C-D, the query ("A", "D") passes the
`itertools.product` combination check (it pairs the `node_i` label of one
member with the `node_j` label of the other), so instead of reaching the
"could not be found" `ValueError` the source evaluates `the_member[0]` on an
empty filtered list and crashes with Python's `IndexError`. -/
theorem get_member_missing_pair_index_error :
    buildC5.map (fun g =>
        (g.members.map (fun m => (m.node_i.label, m.node_j.label)),
         g.get_member_labels "A" "D"))
      = .ok ([("A", "B"), ("C", "D")], .error .indexError) := by
  show Except.ok ([("A", "B"), ("C", "D")],
      (Except.error .indexError : Except GridError Member))
    = Except.ok ([("A", "B"), ("C", "D")], .error .indexError)
  rfl

/-- Fixture: `gA` (one node, index 1) exercised below; `get_node` with the
1-based index of that node. -/
theorem get_node_int_counterexample :
    gA.nodes.map Node.idx = [1]
    ∧ gA.get_node (.idx 1) = .error .indexError
    ∧ gA.get_node (.idx 0) = .ok nodeA0 := by
  refine ⟨by decide, ?_, ?_⟩ <;> rfl

/-- The step function folded by `mkGrid`. -/
def addNodeStep (g : Grid) (t : String × ℚ × ℚ) : Grid :=
  (g.add_node t.1 t.2.1 t.2.2).1

/-- Helper: folding `add_node` preserves the density invariant — the node
indices are `1, 2, ...` in list order and the counter equals the count. -/
theorem foldl_add_node_invariant (l : List (String × ℚ × ℚ)) :
    ∀ g : Grid, g.nodes.map Node.idx = List.range' 1 g.no_nodes →
      (l.foldl addNodeStep g).nodes.map Node.idx
        = List.range' 1 (l.foldl addNodeStep g).no_nodes
      ∧ (l.foldl addNodeStep g).no_nodes = g.no_nodes + l.length := by
  induction l with
  | nil => intro g h; simpa using h
  | cons t ts ih =>
    intro g h
    have hstep : (addNodeStep g t).nodes.map Node.idx
        = List.range' 1 (addNodeStep g t).no_nodes := by
      simp [addNodeStep, Grid.add_node, List.map_append, h,
        List.range'_concat, Nat.add_comm]
    have hih := ih (addNodeStep g t) hstep
    rw [List.foldl_cons]
    refine ⟨hih.1, ?_⟩
    rw [hih.2]
    have hcnt : (addNodeStep g t).no_nodes = g.no_nodes + 1 := rfl
    rw [hcnt]
    simp only [List.length_cons]
    omega

/-- Helper: the grids built by `mkGrid` have dense 1-based indices. -/
theorem mkGrid_idx (l : List (String × ℚ × ℚ)) :
    (mkGrid l).nodes.map Node.idx = List.range' 1 l.length
    ∧ (mkGrid l).nodes.length = l.length := by
  have h := foldl_add_node_invariant l Grid.empty (by simp [Grid.empty])
  have hcnt : (mkGrid l).no_nodes = l.length := by
    have := h.2
    simpa [mkGrid, Grid.empty] using this
  have hmap : (mkGrid l).nodes.map Node.idx = List.range' 1 l.length := by
    have := h.1
    rw [show (l.foldl addNodeStep Grid.empty) = mkGrid l from rfl, hcnt] at this
    exact this
  refine ⟨hmap, ?_⟩
  have := congrArg List.length hmap
  simpa [List.length_range'] using this

/-- C6 (amended): node indices are dense, 1-based, in creation order, but the
integer branch of `get_node` performs Python 0-based list indexing, not
1-based index lookup: for `0 ≤ i < n` it returns the node whose index is
`i + 1`; for `-n ≤ i < 0` it wraps from the end, returning the node with
index `n + i + 1`; any other integer fails with `IndexError` — so calling it
with the 1-based index of an existing node returns the following node (or
fails), never that node itself (for n > 0). -/
theorem get_node_int_zero_based (l : List (String × ℚ × ℚ)) (i : ℤ) :
    (mkGrid l).nodes.map Node.idx = List.range' 1 l.length
    ∧ (0 ≤ i → i < (l.length : ℤ) →
        ∃ nd, (mkGrid l).get_node (.idx i) = .ok nd ∧ nd.idx = i.toNat + 1)
    ∧ (-(l.length : ℤ) ≤ i → i < 0 →
        ∃ nd, (mkGrid l).get_node (.idx i) = .ok nd
          ∧ nd.idx = (i + l.length).toNat + 1)
    ∧ ((l.length : ℤ) ≤ i ∨ i < -(l.length : ℤ) →
        (mkGrid l).get_node (.idx i) = .error .indexError) := by
  obtain ⟨hmap, hlen⟩ := mkGrid_idx l
  have hidx : ∀ (k : ℕ) (hk : k < (mkGrid l).nodes.length),
      ((mkGrid l).nodes.get ⟨k, hk⟩).idx = k + 1 := by
    intro k hk
    have h1 : ((mkGrid l).nodes.map Node.idx)[k]? = some (k + 1) := by
      rw [hmap]
      rw [List.getElem?_eq_getElem (by simpa [List.length_range', ← hlen] using hk)]
      rw [List.getElem_range']
      simp [Nat.add_comm]
    rw [List.getElem?_map, List.getElem?_eq_getElem hk] at h1
    simpa using h1
  refine ⟨hmap, fun h0 hup => ?_, fun hlo hneg => ?_, fun hout => ?_⟩
  · have hnotneg : ¬i < 0 := by omega
    have hcond : 0 ≤ i ∧ i.toNat < (mkGrid l).nodes.length := by
      constructor
      · exact h0
      · rw [hlen]; omega
    refine ⟨(mkGrid l).nodes.get ⟨i.toNat, hcond.2⟩, ?_, hidx _ _⟩
    show pyGet (mkGrid l).nodes i = _
    simp only [pyGet, if_neg hnotneg]
    rw [dif_pos hcond]
  · have hif : (if i < 0 then i + ((mkGrid l).nodes.length : ℤ) else i)
        = i + (l.length : ℤ) := by rw [if_pos hneg, hlen]
    have hcond : 0 ≤ i + (l.length : ℤ)
        ∧ (i + (l.length : ℤ)).toNat < (mkGrid l).nodes.length := by
      constructor
      · omega
      · rw [hlen]; omega
    refine ⟨(mkGrid l).nodes.get ⟨(i + (l.length : ℤ)).toNat, hcond.2⟩, ?_,
      hidx _ _⟩
    show pyGet (mkGrid l).nodes i = _
    simp only [pyGet, hif]
    rw [dif_pos hcond]
  · show pyGet (mkGrid l).nodes i = .error .indexError
    simp only [pyGet, hlen]
    rw [dif_neg]
    rcases hout with hge | hlt
    · have : ¬i < 0 := by omega
      rw [if_neg this]
      intro hc
      omega
    · have : i < 0 := by omega
      rw [if_pos this]
      intro hc
      omega

/-- C6 witness: on a two-node grid the amended contract instantiates —
position 0 holds the node with index 1, position 1 the node with index 2,
`get_node 2` and `get_node (-3)` fail with `IndexError`, and `get_node (-1)`
wraps to the last node (index 2). -/
theorem get_node_int_zero_based_witness :
    (∃ nd, (mkGrid [("A", 0, 0), ("B", 1, 0)]).get_node (.idx 0) = .ok nd
        ∧ nd.idx = (0 : ℤ).toNat + 1)
    ∧ (∃ nd, (mkGrid [("A", 0, 0), ("B", 1, 0)]).get_node (.idx (-1)) = .ok nd
        ∧ nd.idx = ((-1 : ℤ) + (2 : ℕ)).toNat + 1)
    ∧ (mkGrid [("A", 0, 0), ("B", 1, 0)]).get_node (.idx 2)
        = .error .indexError :=
  ⟨by
    have h := (get_node_int_zero_based [("A", 0, 0), ("B", 1, 0)] 0).2.1
    exact h (by omega) (by simp),
   by
    have h := (get_node_int_zero_based [("A", 0, 0), ("B", 1, 0)] (-1)).2.2.1
    exact h (by simp) (by omega),
   by
    have h := (get_node_int_zero_based [("A", 0, 0), ("B", 1, 0)] 2).2.2.2
    exact h (Or.inl (by simp))⟩

/-- Helper: when exactly one node of `l` carries label `lbl`, mutating that
node (at the first-match position `k`) preserves the unique-match property,
the match position, and a second mutation at `k` overwrites the first. -/
theorem set_load_list_aux (lbl : String) (a b c : ℚ) :
    ∀ l : List Node, (l.filter (fun nd => nd.label == lbl)).length = 1 →
      ∃ k n, l.findIdx (fun nd => nd.label == lbl) = k
        ∧ l[k]? = some n
        ∧ l.filter (fun nd => nd.label == lbl) = [n]
        ∧ (l.set k (n.set_load a b c)).filter (fun nd => nd.label == lbl)
            = [n.set_load a b c]
        ∧ (l.set k (n.set_load a b c)).findIdx (fun nd => nd.label == lbl) = k
        ∧ (l.set k (n.set_load a b c))[k]? = some (n.set_load a b c)
        ∧ ∀ v : Node, (l.set k (n.set_load a b c)).set k v = l.set k v := by
  intro l
  induction l with
  | nil => intro h; simp at h
  | cons x t ih =>
    intro h
    by_cases hp : (x.label == lbl) = true
    · have hfilter : (x :: t).filter (fun nd => nd.label == lbl)
          = x :: t.filter (fun nd => nd.label == lbl) :=
        List.filter_cons_of_pos hp
      rw [hfilter] at h
      have ht : t.filter (fun nd => nd.label == lbl) = [] := by
        rw [List.length_cons] at h
        exact List.length_eq_zero.mp (by omega)
      have hp2 : ((x.set_load a b c).label == lbl) = true := hp
      have hfilter2 : ((x.set_load a b c) :: t).filter (fun nd => nd.label == lbl)
          = (x.set_load a b c) :: t.filter (fun nd => nd.label == lbl) :=
        List.filter_cons_of_pos hp2
      refine ⟨0, x, ?_, ?_, ?_, ?_, ?_, ?_, fun v => rfl⟩
      · simp [List.findIdx_cons, hp]
      · simp
      · rw [hfilter, ht]
      · show ((x.set_load a b c) :: t).filter (fun nd => nd.label == lbl) = _
        rw [hfilter2, ht]
      · show ((x.set_load a b c) :: t).findIdx (fun nd => nd.label == lbl) = 0
        simp [List.findIdx_cons, hp2]
      · simp
    · have hpf : (x.label == lbl) = false := by simpa using hp
      have hfilter : (x :: t).filter (fun nd => nd.label == lbl)
          = t.filter (fun nd => nd.label == lbl) :=
        List.filter_cons_of_neg hp
      rw [hfilter] at h
      obtain ⟨k, n, h1, h2, h3, h4, h5, h6, h7⟩ := ih h
      have hfilter2 : (x :: t.set k (n.set_load a b c)).filter
          (fun nd => nd.label == lbl)
          = (t.set k (n.set_load a b c)).filter (fun nd => nd.label == lbl) :=
        List.filter_cons_of_neg hp
      refine ⟨k + 1, n, ?_, ?_, ?_, ?_, ?_, ?_, fun v => ?_⟩
      · simp [List.findIdx_cons, hpf, h1]
      · rw [List.getElem?_cons_succ, h2]
      · rw [hfilter, h3]
      · show ((x :: t.set k (n.set_load a b c)).filter
            (fun nd => nd.label == lbl)) = _
        rw [hfilter2, h4]
      · show ((x :: t.set k (n.set_load a b c)).findIdx
            (fun nd => nd.label == lbl)) = k + 1
        simp [List.findIdx_cons, hpf, h5]
      · show (x :: t.set k (n.set_load a b c))[k + 1]? = _
        rw [List.getElem?_cons_succ, h6]
      · show (x :: t.set k (n.set_load a b c)).set (k + 1) v
            = (x :: t).set (k + 1) v
        simp only [List.set_cons_succ, h7]

/-- C9: two successive `add_load` calls on the same (uniquely labelled) node:
the composite returns a grid identical to the original except that the
matched node's load triple is exactly the second call's arguments — `set_load`
overwrites and never accumulates — while every other field of that node
(index, label, coordinates, support), every other node, and the member
collection and counters are untouched.  (Python's omitted keyword arguments
default to 0, so a call with omitted components is the instance where the
corresponding argument is 0.) -/
theorem set_load_overwrites (g : Grid) (lbl : String) (a b c d e f : ℚ)
    (h : (g.nodes.filter (fun nd => nd.label == lbl)).length = 1) :
    ∃ k n, g.nodes.findIdx (fun nd => nd.label == lbl) = k
      ∧ g.nodes[k]? = some n
      ∧ (g.add_load (.label lbl) a b c >>= fun g1 =>
          g1.add_load (.label lbl) d e f)
        = .ok { g with
            nodes := g.nodes.set k { n with Fz := d, Mx := e, My := f } } := by
  obtain ⟨k, n, h1, h2, h3, h4, h5, h6, h7⟩ := set_load_list_aux lbl a b c g.nodes h
  refine ⟨k, n, h1, h2, ?_⟩
  have hget1 : g.get_node (.label lbl) = .ok n := get_node_label_unique g lbl n h3
  have hcall1 : g.add_load (.label lbl) a b c
      = .ok { g with nodes := g.nodes.set k (n.set_load a b c) } := by
    simp only [Grid.add_load, hget1, Grid.set_node, Grid.node_pos, h1, h2]
  set g1 : Grid := { g with nodes := g.nodes.set k (n.set_load a b c) } with hg1
  have hget2 : g1.get_node (.label lbl) = .ok (n.set_load a b c) :=
    get_node_label_unique g1 lbl (n.set_load a b c) h4
  have hcall2 : g1.add_load (.label lbl) d e f
      = .ok { g1 with
          nodes := g1.nodes.set k ((n.set_load a b c).set_load d e f) } := by
    simp only [Grid.add_load, hget2, Grid.set_node, Grid.node_pos, hg1, h5, h6]
  rw [hcall1]
  show g1.add_load (.label lbl) d e f = _
  rw [hcall2]
  have hs : g1.nodes.set k ((n.set_load a b c).set_load d e f)
      = g.nodes.set k ((n.set_load a b c).set_load d e f) :=
    h7 ((n.set_load a b c).set_load d e f)
  rw [show ({ g1 with
        nodes := g1.nodes.set k ((n.set_load a b c).set_load d e f) } : Grid)
      = { g with
        nodes := g1.nodes.set k ((n.set_load a b c).set_load d e f) } from rfl,
    hs]
  rfl

/-- Fixture two-node grid for the C9 witness. -/
def gAB2 : Grid := mkGrid [("A", 0, 0), ("B", 1, 0)]

/-- C9 witness: the hypothesis holds on the concrete grid `gAB2` and the
theorem applies, with loads (1,2,3) then (4,5,6) on node "A". -/
theorem set_load_overwrites_witness :
    ∃ k n, gAB2.nodes.findIdx (fun nd => nd.label == "A") = k
      ∧ gAB2.nodes[k]? = some n
      ∧ (gAB2.add_load (.label "A") 1 2 3 >>= fun g1 =>
          g1.add_load (.label "A") 4 5 6)
        = .ok { gAB2 with
            nodes := gAB2.nodes.set k { n with Fz := 4, Mx := 5, My := 6 } } :=
  set_load_overwrites gAB2 "A" 1 2 3 4 5 6 (by decide)

/-- C7: every `Support` variant is a 6-tuple of 0/1 restrained-flags; the two
horizontal translations (positions 0, 1) and the Z rotation (position 5) are
restrained in all variants, and the free DOFs are exactly: RX (3) for
PINNED_X, RY (4) for PINNED_Y, RX and RY for PROP, none for FIXED, and DZ (2)
for FIXED_V_ROLLER. -/
theorem support_catalog_flags :
    (∀ sp : Support, sp.value.length = 6
        ∧ sp.value.all (fun v => v == 0 || v == 1)
        ∧ sp.value.getD 0 1 = 1 ∧ sp.value.getD 1 1 = 1 ∧ sp.value.getD 5 1 = 1)
    ∧ Support.freeDOFs .PINNED_X = [3]
    ∧ Support.freeDOFs .PINNED_Y = [4]
    ∧ Support.freeDOFs .PROP = [3, 4]
    ∧ Support.freeDOFs .FIXED = []
    ∧ Support.freeDOFs .FIXED_V_ROLLER = [2] := by
  decide

end Ospgrid
